import Mathlib

/-!
Verification of the cluster control-plane of `src/common/collections.rs`:
the shard-placement generator `generate_even_placement` and the
validator/translator `do_update_collection_cluster`.

Modelling conventions:
* `PeerId`/`ShardId` are machine integers used only as opaque identifiers,
  so they are embedded as `Nat`; their `Display` is decimal in both worlds.
* `ShardKey` is embedded as `String`; its display is the string itself.
* The transfer `method` tag is opaque to this module and embedded as `Nat`.
* The random shuffle `pool.shuffle(&mut rng)` is externalized: the generator
  receives the already-shuffled pool, and theorems quantify over every
  permutation the shuffle may produce.
* `loop_iter.next().unwrap()` on the cyclic iterator is embedded faithfully:
  `cycleGet` returns `none` exactly when the Rust iterator would return
  `None` (empty pool), so `generate_even_placement` is `Option`-valued and
  a `none` result marks the `unwrap` panic.
* The consensus boundary `submit_collection_meta_op` is the edge of the
  model: `do_update_collection_cluster` returns `Except.ok m` when the Rust
  function submits exactly the mutation `m`, and `Except.error e` when it
  returns the error `e` before submitting anything.  Thus an `error` result
  encodes "zero mutations were submitted".
-/

abbrev PeerId := Nat
abbrev ShardId := Nat
abbrev ShardKey := String
abbrev TransferMethodTag := Nat
abbrev ShardsPlacement := List (List PeerId)

/-- Sharding method of a collection; the Rust `#[default]` variant is `Auto`. -/
inductive ShardingMethod
  | Auto
  | Custom
deriving DecidableEq, Repr

/-- Key `(shard_id, to, from)` of one in-flight shard transfer.  The Rust
fields `from` and `to` are Lean keywords and are renamed `from_`, `to_`. -/
structure ShardTransferKey where
  shard_id : ShardId
  to_ : PeerId
  from_ : PeerId
deriving DecidableEq, Repr

/-- Transfer record carried by a start-transfer mutation. -/
structure ShardTransfer where
  shard_id : ShardId
  to_ : PeerId
  from_ : PeerId
  sync : Bool
  method : Option TransferMethodTag
deriving DecidableEq, Repr

/-- Payload of a restart-transfer mutation. -/
structure ShardTransferRestart where
  shard_id : ShardId
  to_ : PeerId
  from_ : PeerId
  method : TransferMethodTag
deriving DecidableEq, Repr

/-- Payload shared by the `MoveShard` and `ReplicateShard` operations. -/
structure MoveShard where
  shard_id : ShardId
  to_peer_id : PeerId
  from_peer_id : PeerId
  method : Option TransferMethodTag
deriving DecidableEq, Repr

/-- Payload of the `AbortTransfer` operation. -/
structure AbortShardTransfer where
  shard_id : ShardId
  to_peer_id : PeerId
  from_peer_id : PeerId
deriving DecidableEq, Repr

/-- Payload of the `DropReplica` operation. -/
structure Replica where
  shard_id : ShardId
  peer_id : PeerId
deriving DecidableEq, Repr

/-- Payload of the `CreateShardingKey` operation.  `shards_number` and
`replication_factor` are `Option<NonZeroU32>` in Rust; the `.get()`
conversion is dropped and they are embedded as `Option Nat`. -/
structure CreateShardingKeyOp where
  shard_key : ShardKey
  shards_number : Option Nat
  replication_factor : Option Nat
  placement : Option (List PeerId)
deriving DecidableEq, Repr

/-- Payload of the `DropShardingKey` operation. -/
structure DropShardingKeyOp where
  shard_key : ShardKey
deriving DecidableEq, Repr

/-- Payload of the `RestartTransfer` operation (its `method` is mandatory). -/
structure RestartTransfer where
  shard_id : ShardId
  from_peer_id : PeerId
  to_peer_id : PeerId
  method : TransferMethodTag
deriving DecidableEq, Repr

/-- The closed tagged union of cluster operations. -/
inductive ClusterOperations
  | MoveShard (move_shard : MoveShard)
  | ReplicateShard (replicate_shard : MoveShard)
  | AbortTransfer (abort_transfer : AbortShardTransfer)
  | DropReplica (drop_replica : Replica)
  | CreateShardingKey (create_sharding_key : CreateShardingKeyOp)
  | DropShardingKey (drop_sharding_key : DropShardingKeyOp)
  | RestartTransfer (restart_transfer : RestartTransfer)
deriving DecidableEq, Repr

/-- Collection parameters read from the state snapshot.  `shard_number` and
`replication_factor` are `NonZeroU32` in Rust, embedded as `Nat`. -/
structure CollectionParams where
  sharding_method : Option ShardingMethod
  shard_number : Nat
  replication_factor : Nat
deriving DecidableEq, Repr

structure CollectionConfig where
  params : CollectionParams
deriving DecidableEq, Repr

/-- Point-in-time state snapshot of a collection.  Only the key set of the
Rust `shards_key_mapping : HashMap<ShardKey, _>` is consulted (via
`contains_key`), so the mapping is embedded as the list of its keys. -/
structure CollectionState where
  config : CollectionConfig
  shards_key_mapping : List ShardKey
deriving DecidableEq, Repr

/-- The slice of a collection consulted by `do_update_collection_cluster`:
its shard-id set (`contains_shard`), its known transfers
(`check_transfer_exists`) and its state snapshot (`state()`). -/
structure Collection where
  shards : List ShardId
  transfers : List ShardTransferKey
  state : CollectionState
deriving DecidableEq, Repr

/-- `collection.contains_shard(shard_id)`. -/
def Collection.contains_shard (c : Collection) (shard_id : ShardId) : Bool :=
  c.shards.contains shard_id

/-- `collection.check_transfer_exists(&transfer)`. -/
def Collection.check_transfer_exists (c : Collection) (t : ShardTransferKey) : Bool :=
  c.transfers.contains t

/-- Storage-error taxonomy restricted to the variants this module produces. -/
inductive StorageError
  | BadRequest (description : String)
  | NotFound (description : String)
deriving DecidableEq, Repr

/-- The slice of the dispatcher consulted by `do_update_collection_cluster`:
`consensus_state()` exposes, when distributed mode is enabled, the key set of
`persistent.read().peer_address_by_id` (the known peer ids), and
`get_collection` resolves a collection name, propagating its storage error. -/
structure Dispatcher where
  consensus_state : Option (List PeerId)
  get_collection : String → Except StorageError Collection

/-- Replica change-set entry of an update-collection mutation. -/
inductive ReplicaChange
  | Remove (shard : ShardId) (peer : PeerId)
deriving DecidableEq, Repr

/-- `UpdateCollectionOperation::new_empty(name)` followed by
`set_shard_replica_changes(changes)`. -/
structure UpdateCollectionOperation where
  collection_name : String
  shard_replica_changes : List ReplicaChange
deriving DecidableEq, Repr

/-- Payload of a create-shard-key mutation. -/
structure CreateShardKey where
  collection_name : String
  shard_key : ShardKey
  placement : ShardsPlacement
deriving DecidableEq, Repr

/-- Payload of a drop-shard-key mutation. -/
structure DropShardKey where
  collection_name : String
  shard_key : ShardKey
deriving DecidableEq, Repr

/-- `ShardTransferOperations` of the consensus layer. -/
inductive ShardTransferOperations
  | Start (transfer : ShardTransfer)
  | Abort (transfer : ShardTransferKey) (reason : String)
  | Restart (restart : ShardTransferRestart)
deriving DecidableEq, Repr

/-- The durable mutations `do_update_collection_cluster` can submit. -/
inductive CollectionMetaOperations
  | TransferShard (collection_name : String) (op : ShardTransferOperations)
  | UpdateCollection (op : UpdateCollectionOperation)
  | CreateShardKey (op : CreateShardKey)
  | DropShardKey (op : DropShardKey)
deriving DecidableEq, Repr

/-! ## The placement generator -/

/-- One step of the cyclic iterator `pool.iter().cycle()`: the i-th call to
`next()` yields element `i % pool.length`, or `none` when the pool is empty
(which is when the Rust `unwrap` would panic). -/
def cycleGet (pool : List PeerId) (i : Nat) : Option PeerId :=
  pool.get? (i % pool.length)

/-- The inner replica loop of `generate_even_placement`: starting at cyclic
position `start`, consume `m` consecutive elements. -/
def buildShard (pool : List PeerId) : Nat → Nat → Option (List PeerId)
  | _, 0 => some []
  | start, m + 1 =>
    match cycleGet pool start, buildShard pool (start + 1) m with
    | some p, some rest => some (p :: rest)
    | _, _ => none

/-- The outer shard loop of `generate_even_placement`: `s` shards, each one
consuming `m` consecutive cyclic elements, the iterator position threading
through. -/
def buildPlacement (pool : List PeerId) (m : Nat) : Nat → Nat → Option ShardsPlacement
  | _, 0 => some []
  | start, s + 1 =>
    match buildShard pool start m, buildPlacement pool m (start + m) s with
    | some row, some rest => some (row :: rest)
    | _, _ => none

/-- `generate_even_placement(pool, shard_number, replication_factor)` where
`pool` is the ALREADY-SHUFFLED pool (randomness externalized, see the module
comment).  `max_replication_factor = min(replication_factor, pool.len())`;
the result is `none` exactly when the Rust `unwrap` would panic. -/
def generate_even_placement (pool : List PeerId) (shard_number replication_factor : Nat) :
    Option ShardsPlacement :=
  buildPlacement pool (min replication_factor pool.length) 0 shard_number

/-- Total form of the inner replica loop (pool indexed modulo its length,
with a default that is never consulted when the pool is nonempty). -/
def buildShardT (pool : List PeerId) : Nat → Nat → List PeerId
  | _, 0 => []
  | start, m + 1 => pool.getD (start % pool.length) 0 :: buildShardT pool (start + 1) m

/-- Total form of the outer shard loop. -/
def buildPlacementT (pool : List PeerId) (m : Nat) : Nat → Nat → ShardsPlacement
  | _, 0 => []
  | start, s + 1 => buildShardT pool start m :: buildPlacementT pool m (start + m) s

/-- Total form of `generate_even_placement`, justified by
`generate_even_placement_eq_total` below: the `Option`-valued embedding never
returns `none`, because the replica loop runs `min(replication_factor,
pool.len())` times, which is `0` whenever the pool is empty. -/
def generate_even_placement_total (pool : List PeerId)
    (shard_number replication_factor : Nat) : ShardsPlacement :=
  buildPlacementT pool (min replication_factor pool.length) 0 shard_number

theorem buildShard_eq_total (pool : List PeerId) (h : pool ≠ []) :
    ∀ m start, buildShard pool start m = some (buildShardT pool start m) := by
  intro m
  induction m with
  | zero => intro start; rfl
  | succ m ih =>
    intro start
    have hlen : 0 < pool.length := List.length_pos.mpr h
    have hlt : start % pool.length < pool.length := Nat.mod_lt _ hlen
    have hcg : cycleGet pool start = some (pool.getD (start % pool.length) 0) := by
      unfold cycleGet
      rw [List.get?_eq_getElem?, List.getElem?_eq_getElem hlt]
      rw [List.getD_eq_getElem?_getD, List.getElem?_eq_getElem hlt]
      rfl
    simp [buildShard, hcg, ih, buildShardT]

theorem buildPlacement_eq_total (pool : List PeerId) (m : Nat)
    (h : pool = [] → m = 0) :
    ∀ s start, buildPlacement pool m start s = some (buildPlacementT pool m start s) := by
  intro s
  induction s with
  | zero => intro start; rfl
  | succ s ih =>
    intro start
    have hrow : buildShard pool start m = some (buildShardT pool start m) := by
      by_cases hp : pool = []
      · have hm : m = 0 := h hp
        subst hm; rfl
      · exact buildShard_eq_total pool hp m start
    simp [buildPlacement, hrow, ih, buildPlacementT]

/-- The `Option`-valued embedding of `generate_even_placement` always
succeeds: the cyclic-iterator `unwrap` is unreachable. -/
theorem generate_even_placement_eq_total (pool : List PeerId)
    (shard_number replication_factor : Nat) :
    generate_even_placement pool shard_number replication_factor =
      some (generate_even_placement_total pool shard_number replication_factor) := by
  unfold generate_even_placement generate_even_placement_total
  apply buildPlacement_eq_total
  intro hp
  simp [hp]

/-! ## Error messages

Each message is built, as in the Rust `format!` calls, by concatenating
literal text with the display of the offending identifiers. -/

/-- Message of the disabled-distributed-mode rejection. -/
def distributed_mode_disabled_msg : String := "Distributed mode disabled"

/-- Message `format!("Peer {peer_id} does not exist")`. -/
def peer_not_exist_msg (peer_id : PeerId) : String :=
  "Peer " ++ toString peer_id ++ " does not exist"

/-- Message `format!("Shard {} of {} does not exist", shard_id, collection_name)`
(the Move/Replicate arms interpolate the same two values inline). -/
def shard_not_exist_msg (shard_id : ShardId) (collection_name : String) : String :=
  "Shard " ++ toString shard_id ++ " of " ++ collection_name ++ " does not exist"

/-- Message `format!("Shard transfer {} -> {} for collection {}:{} does not exist",
transfer.from, transfer.to, collection_name, transfer.shard_id)`. -/
def transfer_not_exist_msg (t : ShardTransferKey) (collection_name : String) : String :=
  "Shard transfer " ++ toString t.from_ ++ " -> " ++ toString t.to_ ++
    " for collection " ++ collection_name ++ ":" ++ toString t.shard_id ++ " does not exist"

/-- Message of the Auto-sharding-method rejection (the Drop arm carries the
same copy-pasted text as the Create arm). -/
def auto_sharding_msg : String := "Shard Key cannot be created with Auto sharding method"

/-- Message `format!("Sharding key {} already exists for collection {}", ..)`. -/
def key_already_exists_msg (shard_key : ShardKey) (collection_name : String) : String :=
  "Sharding key " ++ shard_key ++ " already exists for collection " ++ collection_name

/-- Message `format!("Sharding key {} does not exists for collection {}", ..)`. -/
def key_not_exist_msg (shard_key : ShardKey) (collection_name : String) : String :=
  "Sharding key " ++ shard_key ++ " does not exists for collection " ++ collection_name

/-- Message of the empty-explicit-placement rejection. -/
def empty_placement_msg (shard_key : ShardKey) : String :=
  "Sharding key " ++ shard_key ++
    " placement cannot be empty. If you want to use random placement, do not specify placement"

/-! ## The validator / translator -/

/-- The `validate_peer_exists` closure: peer must be a key of
`peer_address_by_id`. -/
def validate_peer_exists (peers : List PeerId) (peer_id : PeerId) : Except StorageError Unit :=
  if peers.contains peer_id then Except.ok ()
  else Except.error (StorageError.BadRequest (peer_not_exist_msg peer_id))

/-- The `for peer_id in placement { validate_peer_exists(peer_id)? }` loop. -/
def validate_peers_exist (peers : List PeerId) : List PeerId → Except StorageError Unit
  | [] => Except.ok ()
  | p :: rest =>
    match validate_peer_exists peers p with
    | Except.error e => Except.error e
    | Except.ok _ => validate_peers_exist peers rest

/-- Shallow embedding of `do_update_collection_cluster`.  `shuffle` is the
value drawn from `rand::thread_rng()`: the permutation the shuffle inside
`generate_even_placement` applies to its pool (see the module comment).  The
result is `Except.ok m` when the Rust function calls
`submit_collection_meta_op` with mutation `m`, and `Except.error e` when it
returns error `e` without submitting anything. -/
def do_update_collection_cluster (dispatcher : Dispatcher) (collection_name : String)
    (operation : ClusterOperations) (shuffle : List PeerId → List PeerId) :
    Except StorageError CollectionMetaOperations :=
  match dispatcher.consensus_state with
  | none => Except.error (StorageError.BadRequest distributed_mode_disabled_msg)
  | some peers =>
    match dispatcher.get_collection collection_name with
    | Except.error e => Except.error e
    | Except.ok collection =>
      match operation with
      | ClusterOperations.MoveShard move_shard =>
        if ¬ collection.contains_shard move_shard.shard_id then
          Except.error (StorageError.BadRequest
            (shard_not_exist_msg move_shard.shard_id collection_name))
        else
          match validate_peer_exists peers move_shard.to_peer_id with
          | Except.error e => Except.error e
          | Except.ok _ =>
            match validate_peer_exists peers move_shard.from_peer_id with
            | Except.error e => Except.error e
            | Except.ok _ =>
              Except.ok (CollectionMetaOperations.TransferShard collection_name
                (ShardTransferOperations.Start
                  { shard_id := move_shard.shard_id
                    to_ := move_shard.to_peer_id
                    from_ := move_shard.from_peer_id
                    sync := false
                    method := move_shard.method }))
      | ClusterOperations.ReplicateShard replicate_shard =>
        if ¬ collection.contains_shard replicate_shard.shard_id then
          Except.error (StorageError.BadRequest
            (shard_not_exist_msg replicate_shard.shard_id collection_name))
        else
          match validate_peer_exists peers replicate_shard.to_peer_id with
          | Except.error e => Except.error e
          | Except.ok _ =>
            match validate_peer_exists peers replicate_shard.from_peer_id with
            | Except.error e => Except.error e
            | Except.ok _ =>
              Except.ok (CollectionMetaOperations.TransferShard collection_name
                (ShardTransferOperations.Start
                  { shard_id := replicate_shard.shard_id
                    to_ := replicate_shard.to_peer_id
                    from_ := replicate_shard.from_peer_id
                    sync := true
                    method := replicate_shard.method }))
      | ClusterOperations.AbortTransfer abort_transfer =>
        let transfer : ShardTransferKey :=
          { shard_id := abort_transfer.shard_id
            to_ := abort_transfer.to_peer_id
            from_ := abort_transfer.from_peer_id }
        if ¬ collection.check_transfer_exists transfer then
          Except.error (StorageError.NotFound (transfer_not_exist_msg transfer collection_name))
        else
          Except.ok (CollectionMetaOperations.TransferShard collection_name
            (ShardTransferOperations.Abort transfer "user request"))
      | ClusterOperations.DropReplica drop_replica =>
        if ¬ collection.contains_shard drop_replica.shard_id then
          Except.error (StorageError.BadRequest
            (shard_not_exist_msg drop_replica.shard_id collection_name))
        else
          match validate_peer_exists peers drop_replica.peer_id with
          | Except.error e => Except.error e
          | Except.ok _ =>
            Except.ok (CollectionMetaOperations.UpdateCollection
              { collection_name := collection_name
                shard_replica_changes :=
                  [ReplicaChange.Remove drop_replica.shard_id drop_replica.peer_id] })
      | ClusterOperations.CreateShardingKey create_sharding_key =>
        let state := collection.state
        match state.config.params.sharding_method.getD ShardingMethod.Auto with
        | ShardingMethod.Auto =>
          Except.error (StorageError.BadRequest auto_sharding_msg)
        | ShardingMethod.Custom =>
          let shard_number :=
            create_sharding_key.shards_number.getD state.config.params.shard_number
          let replication_factor :=
            create_sharding_key.replication_factor.getD state.config.params.replication_factor
          if state.shards_key_mapping.contains create_sharding_key.shard_key then
            Except.error (StorageError.BadRequest
              (key_already_exists_msg create_sharding_key.shard_key collection_name))
          else
            match create_sharding_key.placement with
            | some placement =>
              if placement.isEmpty then
                Except.error (StorageError.BadRequest
                  (empty_placement_msg create_sharding_key.shard_key))
              else
                match validate_peers_exist peers placement with
                | Except.error e => Except.error e
                | Except.ok _ =>
                  Except.ok (CollectionMetaOperations.CreateShardKey
                    { collection_name := collection_name
                      shard_key := create_sharding_key.shard_key
                      placement := generate_even_placement_total (shuffle placement)
                        shard_number replication_factor })
            | none =>
              Except.ok (CollectionMetaOperations.CreateShardKey
                { collection_name := collection_name
                  shard_key := create_sharding_key.shard_key
                  placement := generate_even_placement_total (shuffle peers)
                    shard_number replication_factor })
      | ClusterOperations.DropShardingKey drop_sharding_key =>
        let state := collection.state
        match state.config.params.sharding_method.getD ShardingMethod.Auto with
        | ShardingMethod.Auto =>
          Except.error (StorageError.BadRequest auto_sharding_msg)
        | ShardingMethod.Custom =>
          if ¬ state.shards_key_mapping.contains drop_sharding_key.shard_key then
            Except.error (StorageError.BadRequest
              (key_not_exist_msg drop_sharding_key.shard_key collection_name))
          else
            Except.ok (CollectionMetaOperations.DropShardKey
              { collection_name := collection_name
                shard_key := drop_sharding_key.shard_key })
      | ClusterOperations.RestartTransfer restart_transfer =>
        let transfer_key : ShardTransferKey :=
          { shard_id := restart_transfer.shard_id
            to_ := restart_transfer.to_peer_id
            from_ := restart_transfer.from_peer_id }
        if ¬ collection.check_transfer_exists transfer_key then
          Except.error (StorageError.NotFound
            (transfer_not_exist_msg transfer_key collection_name))
        else
          Except.ok (CollectionMetaOperations.TransferShard collection_name
            (ShardTransferOperations.Restart
              { shard_id := restart_transfer.shard_id
                to_ := restart_transfer.to_peer_id
                from_ := restart_transfer.from_peer_id
                method := restart_transfer.method }))

/-! ## Properties of the placement generator -/

theorem buildShardT_eq_map (pool : List PeerId) :
    ∀ m start, buildShardT pool start m =
      (List.range m).map (fun j => pool.getD ((start + j) % pool.length) 0) := by
  intro m
  induction m with
  | zero => intro start; rfl
  | succ m ih =>
    intro start
    have hhead : pool.getD (start % pool.length) 0 = pool.getD ((start + 0) % pool.length) 0 := by
      simp
    have htail : List.map (fun j => pool.getD ((start + 1 + j) % pool.length) 0) (List.range m) =
        List.map ((fun j => pool.getD ((start + j) % pool.length) 0) ∘ Nat.succ)
          (List.range m) := by
      apply List.map_congr_left
      intro j _
      simp only [Function.comp_apply]
      congr 2
      omega
    rw [buildShardT, ih (start + 1), List.range_succ_eq_map, List.map_cons, List.map_map,
      ← hhead, htail]

theorem buildShardT_length (pool : List PeerId) (m start : Nat) :
    (buildShardT pool start m).length = m := by
  rw [buildShardT_eq_map]; simp

theorem buildShardT_mem (pool : List PeerId) (h : pool ≠ []) (m start : Nat) :
    ∀ x ∈ buildShardT pool start m, x ∈ pool := by
  rw [buildShardT_eq_map]
  intro x hx
  simp only [List.mem_map, List.mem_range] at hx
  obtain ⟨j, _, hj⟩ := hx
  have hlen : 0 < pool.length := List.length_pos.mpr h
  have hlt : (start + j) % pool.length < pool.length := Nat.mod_lt _ hlen
  rw [List.getD_eq_getElem?_getD, List.getElem?_eq_getElem hlt] at hj
  simp only [Option.getD_some] at hj
  rw [← hj]
  exact List.getElem_mem hlt

theorem buildShardT_nodup (pool : List PeerId) (hnd : pool.Nodup)
    (m start : Nat) (hm : m ≤ pool.length) :
    (buildShardT pool start m).Nodup := by
  rw [buildShardT_eq_map]
  apply List.Nodup.map_on _ (List.nodup_range m)
  intro j1 hj1 j2 hj2 heq
  simp only [List.mem_range] at hj1 hj2
  have hlen : 0 < pool.length := by omega
  have hlt1 : (start + j1) % pool.length < pool.length := Nat.mod_lt _ hlen
  have hlt2 : (start + j2) % pool.length < pool.length := Nat.mod_lt _ hlen
  rw [List.getD_eq_getElem?_getD, List.getElem?_eq_getElem hlt1] at heq
  rw [List.getD_eq_getElem?_getD, List.getElem?_eq_getElem hlt2] at heq
  simp only [Option.getD_some] at heq
  have hidx : (start + j1) % pool.length = (start + j2) % pool.length :=
    (hnd.getElem_inj_iff).mp heq
  have hmod : j1 % pool.length = j2 % pool.length :=
    Nat.ModEq.add_left_cancel' start hidx
  rw [Nat.mod_eq_of_lt (lt_of_lt_of_le hj1 hm),
    Nat.mod_eq_of_lt (lt_of_lt_of_le hj2 hm)] at hmod
  exact hmod

theorem buildPlacementT_length (pool : List PeerId) (m : Nat) :
    ∀ s start, (buildPlacementT pool m start s).length = s := by
  intro s
  induction s with
  | zero => intro start; rfl
  | succ s ih => intro start; simp [buildPlacementT, ih]

theorem buildPlacementT_rows (pool : List PeerId) (m : Nat) :
    ∀ s start, ∀ row ∈ buildPlacementT pool m start s,
      ∃ st, row = buildShardT pool st m := by
  intro s
  induction s with
  | zero => intro start row hrow; simp [buildPlacementT] at hrow
  | succ s ih =>
    intro start row hrow
    rw [buildPlacementT] at hrow
    rcases List.mem_cons.mp hrow with h | h
    · exact ⟨start, h⟩
    · exact ih (start + m) row h

theorem buildShardT_append (pool : List PeerId) :
    ∀ a b start, buildShardT pool start (a + b) =
      buildShardT pool start a ++ buildShardT pool (start + a) b := by
  intro a
  induction a with
  | zero => intro b start; simp [buildShardT]
  | succ a ih =>
    intro b start
    have h1 : a + 1 + b = (a + b) + 1 := by omega
    rw [h1, buildShardT, buildShardT, ih b (start + 1), List.cons_append]
    have h2 : start + 1 + a = start + (a + 1) := by omega
    rw [h2]

theorem buildPlacementT_flatten (pool : List PeerId) (m : Nat) :
    ∀ s start, (buildPlacementT pool m start s).flatten = buildShardT pool start (s * m) := by
  intro s
  induction s with
  | zero => intro start; simp [buildPlacementT, buildShardT]
  | succ s ih =>
    intro start
    rw [buildPlacementT, List.flatten_cons, ih (start + m)]
    have h1 : (s + 1) * m = m + s * m := by ring
    rw [h1, buildShardT_append pool m (s * m) start]

theorem buildShardT_full_cycle (pool : List PeerId) :
    buildShardT pool 0 pool.length = pool := by
  rw [buildShardT_eq_map]
  apply List.ext_getElem
  · simp
  · intro i h1 h2
    simp only [List.getElem_map, List.getElem_range]
    simp only [List.length_map, List.length_range] at h1
    rw [Nat.zero_add, Nat.mod_eq_of_lt h1]
    rw [List.getD_eq_getElem?_getD, List.getElem?_eq_getElem h1]
    rfl

theorem buildPlacementT_zero_m (pool : List PeerId) :
    ∀ s start, buildPlacementT pool 0 start s = List.replicate s [] := by
  intro s
  induction s with
  | zero => intro start; rfl
  | succ s ih =>
    intro start
    rw [buildPlacementT, ih, List.replicate_succ, buildShardT]

/-- C2: for every pool of pairwise-distinct peers with at least one peer,
every shard count, every replication factor at least one, and every
permutation the shuffle may produce, `generate_even_placement` succeeds and
returns exactly `S` shard entries, each holding exactly
`min R |pool|` pairwise-distinct peers drawn from the pool. -/
theorem generate_even_placement_shape (pool shufPool : List PeerId) (S R : Nat)
    (hnd : pool.Nodup) (hP : 1 ≤ pool.length) (hR : 1 ≤ R)
    (hperm : shufPool.Perm pool) :
    ∃ P, generate_even_placement shufPool S R = some P ∧
      P.length = S ∧
      ∀ row ∈ P, row.length = min R pool.length ∧ row.Nodup ∧ ∀ x ∈ row, x ∈ pool := by
  refine ⟨generate_even_placement_total shufPool S R,
    generate_even_placement_eq_total shufPool S R, ?_, ?_⟩
  · exact buildPlacementT_length shufPool _ S 0
  · intro row hrow
    have hlen_eq : shufPool.length = pool.length := hperm.length_eq
    have hne : shufPool ≠ [] := by
      intro hcon
      rw [hcon] at hlen_eq
      simp at hlen_eq
      omega
    obtain ⟨st, hst⟩ := buildPlacementT_rows shufPool _ S 0 row hrow
    subst hst
    refine ⟨?_, ?_, ?_⟩
    · rw [buildShardT_length, hlen_eq]
    · exact buildShardT_nodup shufPool (hperm.nodup_iff.mpr hnd) _ st (min_le_right R _)
    · intro x hx
      exact hperm.subset (buildShardT_mem shufPool hne _ st x hx)

/-- Witness for C2 at pool `[1,2,3]`, shuffled to `[3,1,2]`, with three
shards and replication factor two. -/
theorem generate_even_placement_shape_witness :
    ∃ P, generate_even_placement [3, 1, 2] 3 2 = some P ∧
      P.length = 3 ∧
      ∀ row ∈ P, row.length = min 2 ([1, 2, 3] : List PeerId).length ∧ row.Nodup ∧
        ∀ x ∈ row, x ∈ ([1, 2, 3] : List PeerId) :=
  generate_even_placement_shape [1, 2, 3] [3, 1, 2] 3 2
    (by decide) (by decide) (by decide) (by decide)

/-- C7: on an empty pool `generate_even_placement` terminates without
reaching the `unwrap` (the result is `some`, not `none`) and returns exactly
`S` empty peer-sets, for every shard count and replication factor. -/
theorem generate_even_placement_empty_pool (S R : Nat) :
    generate_even_placement [] S R = some (List.replicate S []) := by
  rw [generate_even_placement_eq_total]
  unfold generate_even_placement_total
  simp only [List.length_nil, Nat.min_zero]
  rw [buildPlacementT_zero_m]

/-- C8: for every permutation of the pool `[1,2,3,4,5,6]`, the placement for
three shards with replication factor two covers every peer of the pool: the
union of the assigned peers is exactly `{1,2,3,4,5,6}`. -/
theorem generate_even_placement_full_coverage (shufPool : List PeerId)
    (hperm : shufPool.Perm [1, 2, 3, 4, 5, 6]) :
    ∃ P, generate_even_placement shufPool 3 2 = some P ∧
      P.flatten.toFinset = ({1, 2, 3, 4, 5, 6} : Finset PeerId) := by
  refine ⟨generate_even_placement_total shufPool 3 2,
    generate_even_placement_eq_total shufPool 3 2, ?_⟩
  have hlen : shufPool.length = 6 := by rw [hperm.length_eq]; rfl
  unfold generate_even_placement_total
  rw [buildPlacementT_flatten]
  have hm : 3 * min 2 shufPool.length = shufPool.length := by rw [hlen]; decide
  rw [hm, buildShardT_full_cycle, List.toFinset_eq_of_perm _ _ hperm]
  decide

/-- Witness for C8 at the identity permutation. -/
theorem generate_even_placement_full_coverage_witness :
    ∃ P, generate_even_placement [1, 2, 3, 4, 5, 6] 3 2 = some P ∧
      P.flatten.toFinset = ({1, 2, 3, 4, 5, 6} : Finset PeerId) :=
  generate_even_placement_full_coverage [1, 2, 3, 4, 5, 6] (by decide)

/-! ## Claims about the validator / translator -/

/-- C10: when the dispatcher has no consensus state (distributed mode
disabled), every operation on every collection fails BadRequest — the
result does not depend on the collection, the operation or the shuffle, so
no collection state is read, no validation runs and nothing is submitted. -/
theorem distributed_mode_disabled_rejects (dispatcher : Dispatcher)
    (collection_name : String) (operation : ClusterOperations)
    (shuffle : List PeerId → List PeerId)
    (h : dispatcher.consensus_state = none) :
    do_update_collection_cluster dispatcher collection_name operation shuffle =
      Except.error (StorageError.BadRequest distributed_mode_disabled_msg) := by
  unfold do_update_collection_cluster
  rw [h]

/-- Witness for C10: a dispatcher with no consensus state rejects a
drop-sharding-key request even though its collection lookup would fail. -/
theorem distributed_mode_disabled_rejects_witness :
    do_update_collection_cluster
        ⟨none, fun _ => Except.error (StorageError.NotFound "missing")⟩
        "places" (ClusterOperations.DropShardingKey ⟨"city"⟩) (fun l => l) =
      Except.error (StorageError.BadRequest distributed_mode_disabled_msg) :=
  distributed_mode_disabled_rejects _ _ _ _ rfl

/-- C4: under the Auto sharding method both CreateShardingKey and
DropShardingKey fail BadRequest, regardless of every other supplied field,
and no mutation is submitted. -/
theorem auto_sharding_rejects_key_ops (dispatcher : Dispatcher) (collection_name : String)
    (peers : List PeerId) (collection : Collection)
    (csk : CreateShardingKeyOp) (dsk : DropShardingKeyOp)
    (shuffle : List PeerId → List PeerId)
    (hc : dispatcher.consensus_state = some peers)
    (hg : dispatcher.get_collection collection_name = Except.ok collection)
    (hm : collection.state.config.params.sharding_method.getD ShardingMethod.Auto =
      ShardingMethod.Auto) :
    do_update_collection_cluster dispatcher collection_name
        (ClusterOperations.CreateShardingKey csk) shuffle =
      Except.error (StorageError.BadRequest auto_sharding_msg) ∧
    do_update_collection_cluster dispatcher collection_name
        (ClusterOperations.DropShardingKey dsk) shuffle =
      Except.error (StorageError.BadRequest auto_sharding_msg) := by
  constructor <;> (unfold do_update_collection_cluster; rw [hc, hg]; simp [hm])

/-- Witness for C4: an Auto-sharded collection rejects a fully-populated
create request and a drop request. -/
theorem auto_sharding_rejects_key_ops_witness :
    do_update_collection_cluster
        ⟨some [1, 2], fun _ => Except.ok ⟨[0], [], ⟨⟨⟨some ShardingMethod.Auto, 1, 1⟩⟩, []⟩⟩⟩
        "places" (ClusterOperations.CreateShardingKey ⟨"city", some 2, some 2, some [1, 2]⟩)
        (fun l => l) =
      Except.error (StorageError.BadRequest auto_sharding_msg) ∧
    do_update_collection_cluster
        ⟨some [1, 2], fun _ => Except.ok ⟨[0], [], ⟨⟨⟨some ShardingMethod.Auto, 1, 1⟩⟩, []⟩⟩⟩
        "places" (ClusterOperations.DropShardingKey ⟨"city"⟩) (fun l => l) =
      Except.error (StorageError.BadRequest auto_sharding_msg) :=
  auto_sharding_rejects_key_ops _ "places" [1, 2] _ ⟨"city", some 2, some 2, some [1, 2]⟩
    ⟨"city"⟩ (fun l => l) rfl rfl rfl

/-- C5: AbortTransfer and RestartTransfer whose `(shard_id, from, to)` triple
matches no transfer known to the collection snapshot fail NotFound and
nothing is submitted; re-issuing an abort after the transfer was removed from
the snapshot therefore fails NotFound again. -/
theorem transfer_ops_unknown_key_not_found (dispatcher : Dispatcher)
    (collection_name : String) (peers : List PeerId) (collection : Collection)
    (ab : AbortShardTransfer) (rt : RestartTransfer)
    (shuffle : List PeerId → List PeerId)
    (hc : dispatcher.consensus_state = some peers)
    (hg : dispatcher.get_collection collection_name = Except.ok collection)
    (hab : collection.check_transfer_exists
      ⟨ab.shard_id, ab.to_peer_id, ab.from_peer_id⟩ = false)
    (hrt : collection.check_transfer_exists
      ⟨rt.shard_id, rt.to_peer_id, rt.from_peer_id⟩ = false) :
    do_update_collection_cluster dispatcher collection_name
        (ClusterOperations.AbortTransfer ab) shuffle =
      Except.error (StorageError.NotFound
        (transfer_not_exist_msg ⟨ab.shard_id, ab.to_peer_id, ab.from_peer_id⟩
          collection_name)) ∧
    do_update_collection_cluster dispatcher collection_name
        (ClusterOperations.RestartTransfer rt) shuffle =
      Except.error (StorageError.NotFound
        (transfer_not_exist_msg ⟨rt.shard_id, rt.to_peer_id, rt.from_peer_id⟩
          collection_name)) := by
  constructor <;> (unfold do_update_collection_cluster; rw [hc, hg]; simp_all)

/-- Witness for C5: aborting or restarting the transfer `(0, 1 -> 2)` on a
collection with an empty transfer set fails NotFound. -/
theorem transfer_ops_unknown_key_not_found_witness :
    do_update_collection_cluster
        ⟨some [1, 2], fun _ => Except.ok ⟨[0], [], ⟨⟨⟨some ShardingMethod.Custom, 1, 1⟩⟩, []⟩⟩⟩
        "places" (ClusterOperations.AbortTransfer ⟨0, 2, 1⟩) (fun l => l) =
      Except.error (StorageError.NotFound
        (transfer_not_exist_msg ⟨0, 2, 1⟩ "places")) ∧
    do_update_collection_cluster
        ⟨some [1, 2], fun _ => Except.ok ⟨[0], [], ⟨⟨⟨some ShardingMethod.Custom, 1, 1⟩⟩, []⟩⟩⟩
        "places" (ClusterOperations.RestartTransfer ⟨0, 1, 2, 5⟩) (fun l => l) =
      Except.error (StorageError.NotFound
        (transfer_not_exist_msg ⟨0, 2, 1⟩ "places")) :=
  transfer_ops_unknown_key_not_found _ "places" [1, 2] _ ⟨0, 2, 1⟩ ⟨0, 1, 2, 5⟩
    (fun l => l) rfl rfl rfl rfl

/-- C6: a validated MoveShard is emitted as a start-transfer with
`sync = false`, a validated ReplicateShard as a start-transfer with
`sync = true`, and for Move, Replicate, Abort and Restart the shard id, the
peer ids and the transfer method of the emitted mutation are exactly the
ones of the input operation. -/
theorem translator_round_trip (dispatcher : Dispatcher) (collection_name : String)
    (peers : List PeerId) (collection : Collection)
    (ms rs : MoveShard) (ab : AbortShardTransfer) (rt : RestartTransfer)
    (shuffle : List PeerId → List PeerId)
    (hc : dispatcher.consensus_state = some peers)
    (hg : dispatcher.get_collection collection_name = Except.ok collection) :
    (collection.contains_shard ms.shard_id = true →
      peers.contains ms.to_peer_id = true →
      peers.contains ms.from_peer_id = true →
      do_update_collection_cluster dispatcher collection_name
          (ClusterOperations.MoveShard ms) shuffle =
        Except.ok (CollectionMetaOperations.TransferShard collection_name
          (ShardTransferOperations.Start
            ⟨ms.shard_id, ms.to_peer_id, ms.from_peer_id, false, ms.method⟩))) ∧
    (collection.contains_shard rs.shard_id = true →
      peers.contains rs.to_peer_id = true →
      peers.contains rs.from_peer_id = true →
      do_update_collection_cluster dispatcher collection_name
          (ClusterOperations.ReplicateShard rs) shuffle =
        Except.ok (CollectionMetaOperations.TransferShard collection_name
          (ShardTransferOperations.Start
            ⟨rs.shard_id, rs.to_peer_id, rs.from_peer_id, true, rs.method⟩))) ∧
    (collection.check_transfer_exists ⟨ab.shard_id, ab.to_peer_id, ab.from_peer_id⟩ = true →
      do_update_collection_cluster dispatcher collection_name
          (ClusterOperations.AbortTransfer ab) shuffle =
        Except.ok (CollectionMetaOperations.TransferShard collection_name
          (ShardTransferOperations.Abort
            ⟨ab.shard_id, ab.to_peer_id, ab.from_peer_id⟩ "user request"))) ∧
    (collection.check_transfer_exists ⟨rt.shard_id, rt.to_peer_id, rt.from_peer_id⟩ = true →
      do_update_collection_cluster dispatcher collection_name
          (ClusterOperations.RestartTransfer rt) shuffle =
        Except.ok (CollectionMetaOperations.TransferShard collection_name
          (ShardTransferOperations.Restart
            ⟨rt.shard_id, rt.to_peer_id, rt.from_peer_id, rt.method⟩))) := by
  refine ⟨?_, ?_, ?_, ?_⟩ <;>
    (intro h1
     try intro h2
     try intro h3
     unfold do_update_collection_cluster
     rw [hc, hg]
     simp_all [validate_peer_exists])

/-- Witness for C6 on a two-peer cluster with one shard and one known
transfer, every validation hypothesis discharged. -/
theorem translator_round_trip_witness :
    (do_update_collection_cluster
        ⟨some [1, 2],
          fun _ => Except.ok ⟨[0], [⟨0, 2, 1⟩], ⟨⟨⟨some ShardingMethod.Custom, 1, 1⟩⟩, []⟩⟩⟩
        "places" (ClusterOperations.MoveShard ⟨0, 2, 1, some 4⟩) (fun l => l) =
      Except.ok (CollectionMetaOperations.TransferShard "places"
        (ShardTransferOperations.Start ⟨0, 2, 1, false, some 4⟩))) ∧
    (do_update_collection_cluster
        ⟨some [1, 2],
          fun _ => Except.ok ⟨[0], [⟨0, 2, 1⟩], ⟨⟨⟨some ShardingMethod.Custom, 1, 1⟩⟩, []⟩⟩⟩
        "places" (ClusterOperations.ReplicateShard ⟨0, 2, 1, some 4⟩) (fun l => l) =
      Except.ok (CollectionMetaOperations.TransferShard "places"
        (ShardTransferOperations.Start ⟨0, 2, 1, true, some 4⟩))) ∧
    (do_update_collection_cluster
        ⟨some [1, 2],
          fun _ => Except.ok ⟨[0], [⟨0, 2, 1⟩], ⟨⟨⟨some ShardingMethod.Custom, 1, 1⟩⟩, []⟩⟩⟩
        "places" (ClusterOperations.AbortTransfer ⟨0, 2, 1⟩) (fun l => l) =
      Except.ok (CollectionMetaOperations.TransferShard "places"
        (ShardTransferOperations.Abort ⟨0, 2, 1⟩ "user request"))) ∧
    (do_update_collection_cluster
        ⟨some [1, 2],
          fun _ => Except.ok ⟨[0], [⟨0, 2, 1⟩], ⟨⟨⟨some ShardingMethod.Custom, 1, 1⟩⟩, []⟩⟩⟩
        "places" (ClusterOperations.RestartTransfer ⟨0, 1, 2, 4⟩) (fun l => l) =
      Except.ok (CollectionMetaOperations.TransferShard "places"
        (ShardTransferOperations.Restart ⟨0, 2, 1, 4⟩))) :=
  have h := translator_round_trip
    ⟨some [1, 2],
      fun _ => Except.ok ⟨[0], [⟨0, 2, 1⟩], ⟨⟨⟨some ShardingMethod.Custom, 1, 1⟩⟩, []⟩⟩⟩
    "places" [1, 2] ⟨[0], [⟨0, 2, 1⟩], ⟨⟨⟨some ShardingMethod.Custom, 1, 1⟩⟩, []⟩⟩
    ⟨0, 2, 1, some 4⟩ ⟨0, 2, 1, some 4⟩ ⟨0, 2, 1⟩ ⟨0, 1, 2, 4⟩ (fun l => l) rfl rfl
  ⟨h.1 (by decide) (by decide) (by decide), h.2.1 (by decide) (by decide) (by decide),
    h.2.2.1 (by decide), h.2.2.2 (by decide)⟩

/-- Modelled from the spec's check list (§4.2, §7): the first failing
applicable validation check for the given operation — shard reference,
peer references, transfer existence, sharding method, shard-key namespace
and explicit placement — in the order the checks are evaluated, with the
error each one raises.  `none` means every applicable check passes.  This is
the spec-side OperationValidator, compared against the code-side
`do_update_collection_cluster` in `validation_failure_zero_submissions`. -/
def first_validation_error (peers : List PeerId) (collection : Collection)
    (collection_name : String) : ClusterOperations → Option StorageError
  | ClusterOperations.MoveShard ms =>
    if ¬ collection.contains_shard ms.shard_id then
      some (StorageError.BadRequest (shard_not_exist_msg ms.shard_id collection_name))
    else
      match validate_peer_exists peers ms.to_peer_id with
      | Except.error e => some e
      | Except.ok _ =>
        match validate_peer_exists peers ms.from_peer_id with
        | Except.error e => some e
        | Except.ok _ => none
  | ClusterOperations.ReplicateShard rs =>
    if ¬ collection.contains_shard rs.shard_id then
      some (StorageError.BadRequest (shard_not_exist_msg rs.shard_id collection_name))
    else
      match validate_peer_exists peers rs.to_peer_id with
      | Except.error e => some e
      | Except.ok _ =>
        match validate_peer_exists peers rs.from_peer_id with
        | Except.error e => some e
        | Except.ok _ => none
  | ClusterOperations.AbortTransfer ab =>
    if ¬ collection.check_transfer_exists ⟨ab.shard_id, ab.to_peer_id, ab.from_peer_id⟩ then
      some (StorageError.NotFound
        (transfer_not_exist_msg ⟨ab.shard_id, ab.to_peer_id, ab.from_peer_id⟩ collection_name))
    else none
  | ClusterOperations.DropReplica dr =>
    if ¬ collection.contains_shard dr.shard_id then
      some (StorageError.BadRequest (shard_not_exist_msg dr.shard_id collection_name))
    else
      match validate_peer_exists peers dr.peer_id with
      | Except.error e => some e
      | Except.ok _ => none
  | ClusterOperations.CreateShardingKey csk =>
    match collection.state.config.params.sharding_method.getD ShardingMethod.Auto with
    | ShardingMethod.Auto => some (StorageError.BadRequest auto_sharding_msg)
    | ShardingMethod.Custom =>
      if collection.state.shards_key_mapping.contains csk.shard_key then
        some (StorageError.BadRequest (key_already_exists_msg csk.shard_key collection_name))
      else
        match csk.placement with
        | some placement =>
          if placement.isEmpty then
            some (StorageError.BadRequest (empty_placement_msg csk.shard_key))
          else
            match validate_peers_exist peers placement with
            | Except.error e => some e
            | Except.ok _ => none
        | none => none
  | ClusterOperations.DropShardingKey dsk =>
    match collection.state.config.params.sharding_method.getD ShardingMethod.Auto with
    | ShardingMethod.Auto => some (StorageError.BadRequest auto_sharding_msg)
    | ShardingMethod.Custom =>
      if ¬ collection.state.shards_key_mapping.contains dsk.shard_key then
        some (StorageError.BadRequest (key_not_exist_msg dsk.shard_key collection_name))
      else none
  | ClusterOperations.RestartTransfer rt =>
    if ¬ collection.check_transfer_exists ⟨rt.shard_id, rt.to_peer_id, rt.from_peer_id⟩ then
      some (StorageError.NotFound
        (transfer_not_exist_msg ⟨rt.shard_id, rt.to_peer_id, rt.from_peer_id⟩ collection_name))
    else none

/-- C1: whenever any applicable validation check fails,
`do_update_collection_cluster` returns exactly that check's error, so it is
an `Except.error` — in this embedding, zero mutations are submitted for a
rejected operation (an `Except.ok` value is the one submitted mutation). -/
theorem validation_failure_zero_submissions (dispatcher : Dispatcher)
    (collection_name : String) (operation : ClusterOperations)
    (peers : List PeerId) (collection : Collection)
    (shuffle : List PeerId → List PeerId) (e : StorageError)
    (hc : dispatcher.consensus_state = some peers)
    (hg : dispatcher.get_collection collection_name = Except.ok collection)
    (hv : first_validation_error peers collection collection_name operation = some e) :
    do_update_collection_cluster dispatcher collection_name operation shuffle =
      Except.error e := by
  unfold do_update_collection_cluster
  rw [hc, hg]
  cases operation <;>
    (unfold first_validation_error at hv
     repeat' split at hv) <;>
    simp_all

/-- Witness for C1: a MoveShard naming an unknown shard is rejected with the
shard-not-found error. -/
theorem validation_failure_zero_submissions_witness :
    do_update_collection_cluster
        ⟨some [1, 2], fun _ => Except.ok ⟨[0], [], ⟨⟨⟨some ShardingMethod.Custom, 1, 1⟩⟩, []⟩⟩⟩
        "places" (ClusterOperations.MoveShard ⟨7, 2, 1, none⟩) (fun l => l) =
      Except.error (StorageError.BadRequest (shard_not_exist_msg 7 "places")) :=
  validation_failure_zero_submissions _ "places" _ [1, 2]
    ⟨[0], [], ⟨⟨⟨some ShardingMethod.Custom, 1, 1⟩⟩, []⟩⟩ (fun l => l)
    (StorageError.BadRequest (shard_not_exist_msg 7 "places")) rfl rfl (by decide)

/-- Counterexample for C3: with the validated explicit placement `[1, 2]`
(one shard, replication factor one) the emitted mutation does NOT carry the
explicit list as its placement, and the path is not deterministic: two
permutations the shuffle may legitimately produce (identity and reversal)
yield two different mutations, so a random draw is consumed. -/
theorem create_sharding_key_explicit_placement_counterexample :
    do_update_collection_cluster
        ⟨some [1, 2], fun _ => Except.ok ⟨[0], [], ⟨⟨⟨some ShardingMethod.Custom, 1, 1⟩⟩, []⟩⟩⟩
        "places" (ClusterOperations.CreateShardingKey ⟨"city", some 1, some 1, some [1, 2]⟩)
        (fun l => l) =
      Except.ok (CollectionMetaOperations.CreateShardKey ⟨"places", "city", [[1]]⟩) ∧
    do_update_collection_cluster
        ⟨some [1, 2], fun _ => Except.ok ⟨[0], [], ⟨⟨⟨some ShardingMethod.Custom, 1, 1⟩⟩, []⟩⟩⟩
        "places" (ClusterOperations.CreateShardingKey ⟨"city", some 1, some 1, some [1, 2]⟩)
        List.reverse =
      Except.ok (CollectionMetaOperations.CreateShardKey ⟨"places", "city", [[2]]⟩) ∧
    (List.reverse [1, 2] : List PeerId).Perm [1, 2] ∧
    ([[1]] : ShardsPlacement) ≠ [[2]] :=
  ⟨rfl, rfl, by decide, by decide⟩

/-- C3 as amended: when CreateShardingKey supplies a non-empty explicit
placement list whose peers all pass the peer-existence check, the emitted
create-shard-key mutation carries `generate_even_placement` applied to the
explicit list as the peer pool (with the effective shard number and
replication factor); the shuffle draw is consumed on this path exactly as on
the omitted-placement path, which draws over the full known peer set. -/
theorem create_sharding_key_explicit_placement_amended (dispatcher : Dispatcher)
    (collection_name : String) (peers : List PeerId) (collection : Collection)
    (csk : CreateShardingKeyOp) (placement : List PeerId)
    (shuffle : List PeerId → List PeerId)
    (hc : dispatcher.consensus_state = some peers)
    (hg : dispatcher.get_collection collection_name = Except.ok collection)
    (hm : collection.state.config.params.sharding_method.getD ShardingMethod.Auto =
      ShardingMethod.Custom)
    (hk : collection.state.shards_key_mapping.contains csk.shard_key = false)
    (hp : csk.placement = some placement)
    (hne : placement.isEmpty = false)
    (hpeers : validate_peers_exist peers placement = Except.ok ()) :
    do_update_collection_cluster dispatcher collection_name
        (ClusterOperations.CreateShardingKey csk) shuffle =
      Except.ok (CollectionMetaOperations.CreateShardKey
        { collection_name := collection_name
          shard_key := csk.shard_key
          placement := generate_even_placement_total (shuffle placement)
            (csk.shards_number.getD collection.state.config.params.shard_number)
            (csk.replication_factor.getD collection.state.config.params.replication_factor) }) := by
  unfold do_update_collection_cluster
  rw [hc, hg]
  have hk2 : csk.shard_key ∉ collection.state.shards_key_mapping := by
    simpa using hk
  simp [hm, hk2, hp, hne, hpeers]

/-- Witness for C3 as amended, at pool `[1, 2]` with the identity shuffle. -/
theorem create_sharding_key_explicit_placement_amended_witness :
    do_update_collection_cluster
        ⟨some [1, 2], fun _ => Except.ok ⟨[0], [], ⟨⟨⟨some ShardingMethod.Custom, 1, 1⟩⟩, []⟩⟩⟩
        "places" (ClusterOperations.CreateShardingKey ⟨"city", some 1, some 1, some [1, 2]⟩)
        (fun l => l) =
      Except.ok (CollectionMetaOperations.CreateShardKey
        ⟨"places", "city", generate_even_placement_total [1, 2] 1 1⟩) :=
  create_sharding_key_explicit_placement_amended
    ⟨some [1, 2], fun _ => Except.ok ⟨[0], [], ⟨⟨⟨some ShardingMethod.Custom, 1, 1⟩⟩, []⟩⟩⟩
    "places" [1, 2] ⟨[0], [], ⟨⟨⟨some ShardingMethod.Custom, 1, 1⟩⟩, []⟩⟩
    ⟨"city", some 1, some 1, some [1, 2]⟩ [1, 2] (fun l => l)
    rfl rfl rfl rfl rfl rfl rfl

/-! ## Error-message claims -/

/-- Proposition that the message `msg` names the identifier rendered as
`ident`: the rendering occurs contiguously inside the message. -/
abbrev mentions (msg ident : String) : Prop :=
  ident.data <:+: msg.data

/-- Counterexample for C9: the Auto-sharding-method rejection of a
CreateShardingKey names no identifier at all — not the requested shard key,
not any supplied peer id, not any shard id — so not every failure message
names the identifier that caused it. -/
theorem error_message_counterexample :
    do_update_collection_cluster
        ⟨some [7], fun _ => Except.ok ⟨[0], [], ⟨⟨⟨some ShardingMethod.Auto, 1, 1⟩⟩, []⟩⟩⟩
        "places" (ClusterOperations.CreateShardingKey ⟨"zzz", some 1, some 1, some [7]⟩)
        (fun l => l) =
      Except.error (StorageError.BadRequest auto_sharding_msg) ∧
    ¬ mentions auto_sharding_msg "zzz" ∧
    ¬ mentions auto_sharding_msg (toString (7 : PeerId)) ∧
    ¬ mentions auto_sharding_msg (toString (0 : ShardId)) ∧
    ¬ mentions auto_sharding_msg (toString (1 : Nat)) :=
  ⟨rfl, by decide, by decide, by decide, by decide⟩

/-- C9 as amended: every failure raised by an identifier-referencing check —
unknown peer, unknown shard, absent transfer, duplicate or missing shard
key, empty explicit placement — carries a message naming the offending
identifier (for a transfer, all three components of its key); the
distributed-mode and sharding-method rejections carry fixed messages naming
no identifier (see the counterexample). -/
theorem error_messages_name_identifiers :
    (∀ p : PeerId, mentions (peer_not_exist_msg p) (toString p)) ∧
    (∀ (sid : ShardId) (cn : String), mentions (shard_not_exist_msg sid cn) (toString sid)) ∧
    (∀ (k : ShardTransferKey) (cn : String),
      mentions (transfer_not_exist_msg k cn) (toString k.from_) ∧
      mentions (transfer_not_exist_msg k cn) (toString k.to_) ∧
      mentions (transfer_not_exist_msg k cn) (toString k.shard_id)) ∧
    (∀ (k : ShardKey) (cn : String), mentions (key_already_exists_msg k cn) k) ∧
    (∀ (k : ShardKey) (cn : String), mentions (key_not_exist_msg k cn) k) ∧
    (∀ k : ShardKey, mentions (empty_placement_msg k) k) := by
  refine ⟨?_, ?_, ?_, ?_, ?_, ?_⟩
  · intro p
    exact ⟨"Peer ".data, " does not exist".data,
      by simp [peer_not_exist_msg, String.data_append]⟩
  · intro sid cn
    exact ⟨"Shard ".data, (" of " ++ cn ++ " does not exist").data,
      by simp [shard_not_exist_msg, String.data_append]⟩
  · intro k cn
    refine ⟨?_, ?_, ?_⟩
    · exact ⟨"Shard transfer ".data,
        (" -> " ++ toString k.to_ ++ " for collection " ++ cn ++ ":" ++
          toString k.shard_id ++ " does not exist").data,
        by simp [transfer_not_exist_msg, String.data_append]⟩
    · exact ⟨("Shard transfer " ++ toString k.from_ ++ " -> ").data,
        (" for collection " ++ cn ++ ":" ++ toString k.shard_id ++ " does not exist").data,
        by simp [transfer_not_exist_msg, String.data_append]⟩
    · exact ⟨("Shard transfer " ++ toString k.from_ ++ " -> " ++ toString k.to_ ++
          " for collection " ++ cn ++ ":").data,
        " does not exist".data,
        by simp [transfer_not_exist_msg, String.data_append]⟩
  · intro k cn
    exact ⟨"Sharding key ".data, (" already exists for collection " ++ cn).data,
      by simp [key_already_exists_msg, String.data_append]⟩
  · intro k cn
    exact ⟨"Sharding key ".data, (" does not exists for collection " ++ cn).data,
      by simp [key_not_exist_msg, String.data_append]⟩
  · intro k
    exact ⟨"Sharding key ".data,
      (" placement cannot be empty. If you want to use random placement, do not specify placement").data,
      by simp [empty_placement_msg, String.data_append]⟩
